import Mathlib

/-!
Verification of the OpenRefine MCP adapter (`openrefine_mcp`).

The repository is a thin HTTP client (`openrefine_client.py`) plus a dispatch
layer (`openrefine_server.py`).  We shallowly embed the client's pure logic:
an HTTP response is a record carrying its status code, its `location` header,
the result of attempting to parse its body as JSON (`none` models a
`json.JSONDecodeError` from `response.json()`), and its raw body bytes.
Each client operation becomes a function from the responses the server would
return to (the list of HTTP requests issued, the updated client state, and
either a result or the Python exception raised).  Base-URL concatenation is
elided: endpoint URLs appear as their path strings.
-/

namespace OpenRefine

/-- A JSON value, as produced by Python's `json.loads`.  Numbers are modelled
as integers (no claim involves fractional JSON numbers). -/
inductive Json where
  | null
  | bool (b : Bool)
  | num (n : Int)
  | str (s : String)
  | arr (elems : List Json)
  | obj (fields : List (String × Json))

/-- Python truthiness (`if not x`) of a JSON value. -/
def pyTruthy : Json → Bool
  | .null => false
  | .bool b => b
  | .num n => n != 0
  | .str s => s != ""
  | .arr elems => !elems.isEmpty
  | .obj fields => !fields.isEmpty

/-- Interpret a list of characters as a decimal numeral (digits only). -/
def digitsToNat : List Char → Option Nat
  | [] => none
  | cs => cs.foldl (fun acc c =>
      match acc with
      | none => none
      | some n => if c.isDigit then some (n * 10 + (c.toNat - 48)) else none)
      (some 0)

/-- Python's `int(s)` on a plain decimal string: an optional sign followed by
digits; anything else raises `ValueError` (modelled as `none`).  (Python also
accepts surrounding whitespace and underscore separators; those inputs do not
occur in the claims.) -/
def pyInt (s : String) : Option Int :=
  match s.toList with
  | '-' :: rest => (digitsToNat rest).map (fun n => -(n : Int))
  | '+' :: rest => (digitsToNat rest).map (fun n => (n : Int))
  | cs => (digitsToNat cs).map (fun n => (n : Int))

/-- Does `pre` occur as a prefix of `cs`? -/
def startsWithList : List Char → List Char → Bool
  | [], _ => true
  | _ :: _, [] => false
  | p :: ps, c :: cs => p == c && startsWithList ps cs

/-- Worker for `pySplit`, structurally recursive on a fuel argument (the fuel
is at least the input length plus one, so it never runs out). -/
def splitOnFuel (sep : List Char) : Nat → List Char → List Char → List (List Char)
  | 0, rest, acc => [acc.reverse ++ rest]
  | _ + 1, [], acc => [acc.reverse]
  | n + 1, c :: cs, acc =>
    if startsWithList sep (c :: cs) then
      acc.reverse :: splitOnFuel sep n (List.drop (sep.length - 1) cs) []
    else
      splitOnFuel sep n cs (c :: acc)

/-- Python's `s.split(sep)` for a non-empty separator: the maximal split on
every non-overlapping occurrence of `sep`, keeping empty parts. -/
def pySplit (s sep : String) : List String :=
  (splitOnFuel sep.toList (s.toList.length + 1) s.toList []).map
    (fun cs => String.mk cs)

/-- An HTTP response as seen by the client.  `jsonBody` is the result of
parsing the body as JSON (`none` when `response.json()` would raise
`json.JSONDecodeError`); `content` is the raw body bytes. -/
structure HttpResponse where
  status_code : Nat
  location : Option String
  jsonBody : Option Json
  content : List Nat

/-- The Python exceptions the client code can raise. -/
inductive ClientError where
  /-- `httpx.HTTPStatusError` from `response.raise_for_status()`. -/
  | httpStatusError (status : Nat)
  /-- The `ValueError` raised by `_validate_openrefine_response` for a body
  with `code == "error"`; carries the body's `message` field (or the
  `"Unknown error"` fallback). -/
  | apiError (message : Json)
  /-- Any other `ValueError`, with its literal message. -/
  | valueError (msg : String)
  /-- `json.JSONDecodeError` escaping from a bare `response.json()` call. -/
  | jsonDecodeError
  /-- `AttributeError`: calling `.get` on a parsed body that is not a dict. -/
  | attributeError
  /-- A pydantic validation error constructing a result model. -/
  | validationError
  /-- `UnicodeDecodeError` from `bytes.decode("utf-8")`. -/
  | unicodeDecodeError

/-- httpx's `Response.raise_for_status()`: raises `HTTPStatusError` for every
non-2xx status (httpx, unlike requests, raises for 3xx as well, since the
client does not follow redirects). -/
def raise_for_status (r : HttpResponse) : Except ClientError Unit :=
  if 200 ≤ r.status_code ∧ r.status_code ≤ 299 then .ok ()
  else .error (.httpStatusError r.status_code)

/-- `OpenRefineClient._validate_openrefine_response`:
skip `raise_for_status` only when the status is exactly 302; then try to parse
the body as JSON — a `json.JSONDecodeError` is caught and ignored, while a
body that parses to a dict with `code == "error"` raises a `ValueError`
carrying the body's `message` field (default `"Unknown error"`).  A parsed
body that is not a dict makes `data.get` raise `AttributeError`, which the
`except json.JSONDecodeError` clause does not catch. -/
def validate_openrefine_response (r : HttpResponse) : Except ClientError HttpResponse :=
  match (if r.status_code = 302 then .ok () else raise_for_status r :
      Except ClientError Unit) with
  | .error e => .error e
  | .ok () =>
    match r.jsonBody with
    | none => .ok r
    | some (.obj fields) =>
      match fields.lookup "code" with
      | some (.str s) =>
        if s = "error" then
          .error (.apiError ((fields.lookup "message").getD (.str "Unknown error")))
        else
          .ok r
      | _ => .ok r
    | some _ => .error .attributeError

/-- Hexadecimal digit character (lowercase, as produced by `json.dumps`). -/
def hexChar (n : Nat) : Char :=
  if n < 10 then Char.ofNat (48 + n) else Char.ofNat (87 + (n % 16))

/-- `\uXXXX` escape for a 16-bit code unit. -/
def uEscape (n : Nat) : String :=
  "\\u" ++ String.mk [hexChar (n / 4096 % 16), hexChar (n / 256 % 16),
    hexChar (n / 16 % 16), hexChar (n % 16)]

/-- How `json.dumps` (with its default `ensure_ascii=True`) renders one
character inside a string literal. -/
def jsonEscapeChar (c : Char) : String :=
  if c = '\\' then "\\\\"
  else if c = '"' then "\\\""
  else if c = Char.ofNat 8 then "\\b"
  else if c = Char.ofNat 9 then "\\t"
  else if c = Char.ofNat 10 then "\\n"
  else if c = Char.ofNat 12 then "\\f"
  else if c = Char.ofNat 13 then "\\r"
  else if c.toNat < 32 then uEscape c.toNat
  else if c.toNat ≤ 126 then String.singleton c
  else if c.toNat ≤ 65535 then uEscape c.toNat
  else
    uEscape (55296 + (c.toNat - 65536) / 1024) ++
      uEscape (56320 + (c.toNat - 65536) % 1024)

/-- A rendered JSON string literal. -/
def jsonStrLit (s : String) : String :=
  "\"" ++ String.join (s.toList.map jsonEscapeChar) ++ "\""

mutual

/-- Python's `json.dumps` with default arguments (item separator `", "`,
key separator `": "`). -/
def dumps : Json → String
  | .null => "null"
  | .bool true => "true"
  | .bool false => "false"
  | .num n => toString n
  | .str s => jsonStrLit s
  | .arr elems => "[" ++ dumpsElems elems ++ "]"
  | .obj fields => "\x7b" ++ dumpsFields fields ++ "\x7d"

/-- Array elements of `dumps`, joined by `", "`. -/
def dumpsElems : List Json → String
  | [] => ""
  | [x] => dumps x
  | x :: xs => dumps x ++ ", " ++ dumpsElems xs

/-- Object entries of `dumps`, joined by `", "`. -/
def dumpsFields : List (String × Json) → String
  | [] => ""
  | [(k, v)] => jsonStrLit k ++ ": " ++ dumps v
  | (k, v) :: xs => jsonStrLit k ++ ": " ++ dumps v ++ ", " ++ dumpsFields xs

end

/-- `models.ProjectInfo` (pydantic): `project_id: int`, `name: str`. -/
structure ProjectInfo where
  project_id : Int
  name : String
deriving Repr, DecidableEq

/-- `models.ApplySummary` (pydantic): `applied: bool`,
`last_modified_ms: int`. -/
structure ApplySummary where
  applied : Bool
  last_modified_ms : Int
deriving Repr, DecidableEq

/-- Pydantic v2 lax coercion of a JSON value into an `int` field: integers
pass through, numeric strings are parsed, everything else (including `bool`)
is a validation error. -/
def pydanticInt : Json → Option Int
  | .num n => some n
  | .str s => pyInt s
  | _ => none

/-- Pydantic v2 lax coercion into a `str` field: only strings are accepted. -/
def pydanticStr : Json → Option String
  | .str s => some s
  | _ => none

/-- The mutable state of one `OpenRefineClient` instance: the memoized CSRF
token (`self._csrf_token`), `none` until a fetch assigns it.  The code
annotates the field as `str | None` but stores whatever JSON value
`result.get("token")` returned, so the model stores a `Json`. -/
structure ClientState where
  csrf_token : Option Json

/-- An HTTP request issued by the client, as recorded in an execution trace.
`httpPost` carries the query parameters actually sent (including the
`csrf_token` parameter added by `_post`), the form-data fields, and whether a
multipart file upload was attached. -/
inductive Request where
  | getCsrfToken
  | httpGet (url : String) (params : List (String × Json))
  | httpPost (url : String) (params : List (String × Json))
      (data : List (String × String)) (hasFile : Bool)

/-- `OpenRefineClient._get_csrf_token`, given the response the token endpoint
would return.  Returns the requests issued, the updated state, and the token
(or the exception).  Mirrors the code exactly: the fetch happens only when
`self._csrf_token is None`; the fetched value is assigned to the field
*before* the truthiness check, so a present-but-falsy token is cached even
though the call raises. -/
def get_csrf_token (st : ClientState) (tokenResp : HttpResponse) :
    List Request × ClientState × Except ClientError Json :=
  match st.csrf_token with
  | some t => ([], st, .ok t)
  | none =>
    let reqs := [Request.getCsrfToken]
    match validate_openrefine_response tokenResp with
    | .error e => (reqs, st, .error e)
    | .ok r =>
      match r.jsonBody with
      | none => (reqs, st, .error .jsonDecodeError)
      | some (.obj fields) =>
        let fetched := fields.lookup "token"
        let st1 : ClientState := { csrf_token := fetched }
        match fetched with
        | some t =>
          if pyTruthy t then (reqs, st1, .ok t)
          else
            (reqs, st1,
              .error (.valueError "Failed to get CSRF token: no token returned"))
        | none =>
          (reqs, st1,
            .error (.valueError "Failed to get CSRF token: no token returned"))
      | some _ => (reqs, st, .error .attributeError)

/-- `OpenRefineClient._post`: fetch (or reuse) the CSRF token, add it to the
query parameters under the key `csrf_token`, issue the POST, and validate the
response the server would return (`resp`). -/
def post (st : ClientState) (tokenResp : HttpResponse) (url : String)
    (params : List (String × Json)) (data : List (String × String))
    (hasFile : Bool) (resp : HttpResponse) :
    List Request × ClientState × Except ClientError HttpResponse :=
  match get_csrf_token st tokenResp with
  | (reqs, st1, .error e) => (reqs, st1, .error e)
  | (reqs, st1, .ok tok) =>
    (reqs ++ [Request.httpPost url (params ++ [("csrf_token", tok)]) data hasFile],
      st1, validate_openrefine_response resp)

/-- Python's `name or "Untitled"` for an optional string: the name when it is
present and non-empty (truthy), else the fallback. -/
def pyStrOr (name : Option String) (dflt : String) : String :=
  match name with
  | some n => if n = "" then dflt else n
  | none => dflt

/-- `OpenRefineClient.create_project`, given the response of the plain GET to
`dataset_url` (`dlResp`), the token-endpoint response (`tokenResp`, used only
if no token is cached), and the response of the upload POST (`upResp`).
Follows the code: download and validate the dataset response; build the form
data (`project-name` only when `name` is truthy); POST the multipart upload;
on a 302 parse the id out of the `location` header after `"project="`; else
fall back to a JSON body with `projectID` / optional `projectName`. -/
def create_project (st : ClientState) (tokenResp dlResp upResp : HttpResponse)
    (dataset_url : String) (name : Option String) :
    List Request × ClientState × Except ClientError ProjectInfo :=
  let dlReqs := [Request.httpGet dataset_url []]
  match validate_openrefine_response dlResp with
  | .error e => (dlReqs, st, .error e)
  | .ok _dl =>
    let data : List (String × String) :=
      match name with
      | some n => if n = "" then [] else [("project-name", n)]
      | none => []
    match post st tokenResp "/command/core/create-project-from-upload"
        [] data true upResp with
    | (reqs, st1, .error e) => (dlReqs ++ reqs, st1, .error e)
    | (reqs, st1, .ok response) =>
      let allReqs := dlReqs ++ reqs
      if response.status_code = 302 then
        let location := response.location.getD ""
        match (pySplit location "project=").get? 1 with
        | some idStr =>
          match pyInt idStr with
          | some pid =>
            (allReqs, st1, .ok { project_id := pid, name := pyStrOr name "Untitled" })
          | none =>
            (allReqs, st1,
              .error (.valueError "invalid literal for int() with base 10"))
        | none =>
          (allReqs, st1,
            .error (.valueError "Failed to create project: no project ID in redirect"))
      else
        match response.jsonBody with
        | none =>
          (allReqs, st1,
            .error (.valueError "Failed to create project: unexpected response format"))
        | some (.obj fields) =>
          let project_name : Json :=
            (fields.lookup "projectName").getD (.str (pyStrOr name "Untitled"))
          match fields.lookup "projectID" with
          | none =>
            (allReqs, st1,
              .error (.valueError "Failed to create project: no project ID returned"))
          | some .null =>
            (allReqs, st1,
              .error (.valueError "Failed to create project: no project ID returned"))
          | some pid =>
            match pydanticInt pid, pydanticStr project_name with
            | some i, some s => (allReqs, st1, .ok { project_id := i, name := s })
            | _, _ => (allReqs, st1, .error .validationError)
        | some _ => (allReqs, st1, .error .attributeError)

/-- The `operations` argument of `apply_operations`: either a JSON string or
a structured value (`dict` in the signature, any JSON value in practice). -/
inductive Operations where
  | str (s : String)
  | json (j : Json)

/-- The normalization step at the top of `apply_operations`: pass a string
through, serialize anything else with `json.dumps`. -/
def normalize_operations : Operations → String
  | .str s => s
  | .json j => dumps j

/-- `OpenRefineClient.apply_operations`, given the token-endpoint response
and the response of the apply POST.  POSTs with the project id as a query
parameter and the normalized operations as form data, then reads
`code == "ok"` and `lastModified` (default 0) from the JSON body. -/
def apply_operations (st : ClientState) (tokenResp resp : HttpResponse)
    (project_id : Int) (operations : Operations) :
    List Request × ClientState × Except ClientError ApplySummary :=
  let operations_json := normalize_operations operations
  match post st tokenResp "/command/core/apply-operations"
      [("project", .str (toString project_id))]
      [("operations", operations_json)] false resp with
  | (reqs, st1, .error e) => (reqs, st1, .error e)
  | (reqs, st1, .ok response) =>
    match response.jsonBody with
    | none => (reqs, st1, .error .jsonDecodeError)
    | some (.obj fields) =>
      let applied : Bool :=
        match fields.lookup "code" with
        | some (.str s) => s == "ok"
        | _ => false
      let last_modified := (fields.lookup "lastModified").getD (.num 0)
      match pydanticInt last_modified with
      | some m => (reqs, st1, .ok { applied := applied, last_modified_ms := m })
      | none => (reqs, st1, .error .validationError)
    | some _ => (reqs, st1, .error .attributeError)

/-- `OpenRefineClient.export_csv`: authenticated POST to the export endpoint
with `project` and `format=csv` query parameters; returns the raw response
body bytes unmodified. -/
def export_csv (st : ClientState) (tokenResp resp : HttpResponse)
    (project_id : Int) :
    List Request × ClientState × Except ClientError (List Nat) :=
  match post st tokenResp "/command/core/export-rows"
      [("project", .str (toString project_id)), ("format", .str "csv")]
      [] false resp with
  | (reqs, st1, .error e) => (reqs, st1, .error e)
  | (reqs, st1, .ok response) => (reqs, st1, .ok response.content)

/-- `OpenRefineClient.delete_project`: authenticated POST to the delete
endpoint with the project id as query parameter; returns
`result.get("code", "error") == "ok"`. -/
def delete_project (st : ClientState) (tokenResp resp : HttpResponse)
    (project_id : Int) :
    List Request × ClientState × Except ClientError Bool :=
  match post st tokenResp "/command/core/delete-project"
      [("project", .str (toString project_id))] [] false resp with
  | (reqs, st1, .error e) => (reqs, st1, .error e)
  | (reqs, st1, .ok response) =>
    match response.jsonBody with
    | none => (reqs, st1, .error .jsonDecodeError)
    | some (.obj fields) =>
      (reqs, st1, .ok
        (match fields.lookup "code" with
         | some (.str s) => s == "ok"
         | _ => false))
    | some _ => (reqs, st1, .error .attributeError)

/-- `models.ColumnInfo` (wire names `cellIndex`, `originalName`, `name`). -/
structure ColumnInfo where
  cell_index : Int
  original_name : String
  name : String
deriving Repr, DecidableEq

/-- `models.ColumnModel` (wire names `columns`, `keyCellIndex`,
`keyColumnName`, `columnGroups` with default `[]`). -/
structure ColumnModel where
  columns : List ColumnInfo
  key_cell_index : Int
  key_column_name : String
  column_groups : List Json

/-- `models.RecordModel` (wire name `hasRecords`). -/
structure RecordModel where
  has_records : Bool
deriving Repr, DecidableEq

/-- `models.ScriptingLanguage` (wire names `name`, `defaultExpression`). -/
structure ScriptingLanguage where
  name : String
  default_expression : String
deriving Repr, DecidableEq

/-- `models.ScriptingInfo`. -/
structure ScriptingInfo where
  grel : ScriptingLanguage
  jython : ScriptingLanguage
  clojure : ScriptingLanguage
deriving Repr, DecidableEq

/-- `models.ProjectModels` (wire names `columnModel`, `recordModel`,
`overlayModels` with default empty map, `scripting`). -/
structure ProjectModels where
  column_model : ColumnModel
  record_model : RecordModel
  overlay_models : List (String × Json)
  scripting : ScriptingInfo

/-- Pydantic validation of one `ColumnInfo` from a JSON value.  (Pydantic's
lax coercions beyond numeric strings for int fields are elided throughout the
model parsers; no claim depends on them.) -/
def parseColumnInfo : Json → Option ColumnInfo
  | .obj f =>
    match f.lookup "cellIndex", f.lookup "originalName", f.lookup "name" with
    | some ci, some origName, some nm =>
      match pydanticInt ci, pydanticStr origName, pydanticStr nm with
      | some a, some b, some c => some ⟨a, b, c⟩
      | _, _, _ => none
    | _, _, _ => none
  | _ => none

/-- Validate every element of a `columns` array. -/
def parseColumns : List Json → Option (List ColumnInfo)
  | [] => some []
  | j :: js =>
    match parseColumnInfo j, parseColumns js with
    | some c, some cs => some (c :: cs)
    | _, _ => none

/-- Pydantic validation of a `ColumnModel`. -/
def parseColumnModel : Json → Option ColumnModel
  | .obj f =>
    match f.lookup "columns", f.lookup "keyCellIndex", f.lookup "keyColumnName" with
    | some (.arr cols), some kci, some kcn =>
      match parseColumns cols, pydanticInt kci, pydanticStr kcn with
      | some cs, some a, some b =>
        some ⟨cs, a, b,
          match f.lookup "columnGroups" with
          | some (.arr gs) => gs
          | _ => []⟩
      | _, _, _ => none
    | _, _, _ => none
  | _ => none

/-- Pydantic validation of a `RecordModel`. -/
def parseRecordModel : Json → Option RecordModel
  | .obj f =>
    match f.lookup "hasRecords" with
    | some (.bool b) => some ⟨b⟩
    | _ => none
  | _ => none

/-- Pydantic validation of a `ScriptingLanguage`. -/
def parseScriptingLanguage : Json → Option ScriptingLanguage
  | .obj f =>
    match f.lookup "name", f.lookup "defaultExpression" with
    | some nm, some de =>
      match pydanticStr nm, pydanticStr de with
      | some a, some b => some ⟨a, b⟩
      | _, _ => none
    | _, _ => none
  | _ => none

/-- Pydantic validation of a `ScriptingInfo`. -/
def parseScriptingInfo : Json → Option ScriptingInfo
  | .obj f =>
    match f.lookup "grel", f.lookup "jython", f.lookup "clojure" with
    | some g, some j, some c =>
      match parseScriptingLanguage g, parseScriptingLanguage j,
          parseScriptingLanguage c with
      | some a, some b, some d => some ⟨a, b, d⟩
      | _, _, _ => none
    | _, _, _ => none
  | _ => none

/-- Pydantic validation of a full `ProjectModels` (`ProjectModels(**result)`).
Every missing required nested object fails validation; `overlayModels`
defaults to the empty map. -/
def parseProjectModels : Json → Option ProjectModels
  | .obj f =>
    match f.lookup "columnModel", f.lookup "recordModel", f.lookup "scripting" with
    | some cm, some rm, some sc =>
      match parseColumnModel cm, parseRecordModel rm, parseScriptingInfo sc with
      | some a, some b, some c =>
        some ⟨a, b,
          (match f.lookup "overlayModels" with
           | some (.obj om) => om
           | _ => []), c⟩
      | _, _, _ => none
    | _, _, _ => none
  | _ => none

/-- `OpenRefineClient.get_project_models`: an *unauthenticated* GET (via
`_get`, which never touches the CSRF token) to the models endpoint with the
project id as query parameter, then `ProjectModels(**result)`. -/
def get_project_models (st : ClientState) (resp : HttpResponse)
    (project_id : Int) :
    List Request × ClientState × Except ClientError ProjectModels :=
  let reqs := [Request.httpGet "/command/core/get-models"
    [("project", .str (toString project_id))]]
  match validate_openrefine_response resp with
  | .error e => (reqs, st, .error e)
  | .ok response =>
    match response.jsonBody with
    | none => (reqs, st, .error .jsonDecodeError)
    | some data =>
      match parseProjectModels data with
      | some m => (reqs, st, .ok m)
      | none => (reqs, st, .error .validationError)

/-- Lower bound for the first continuation byte of a multi-byte UTF-8
sequence led by `b` (0xA0 after 0xE0, 0x90 after 0xF0, else 0x80). -/
def contLo (b : Nat) : Nat :=
  if b = 224 then 160 else if b = 240 then 144 else 128

/-- Upper bound for the first continuation byte of a multi-byte UTF-8
sequence led by `b` (0x9F after 0xED, 0x8F after 0xF4, else 0xBF). -/
def contHi (b : Nat) : Nat :=
  if b = 237 then 159 else if b = 244 then 143 else 191

/-- Python's strict `bytes.decode("utf-8")`: returns the decoded code points,
or `none` where CPython raises `UnicodeDecodeError` (truncated sequences,
bad continuation bytes, overlong encodings, surrogates, values above
U+10FFFF). -/
def utf8Decode : List Nat → Option (List Nat)
  | [] => some []
  | b :: rest =>
    if b ≤ 127 then
      (utf8Decode rest).map (fun cs => b :: cs)
    else if 194 ≤ b ∧ b ≤ 223 then
      match rest with
      | c1 :: rest1 =>
        if 128 ≤ c1 ∧ c1 ≤ 191 then
          (utf8Decode rest1).map (fun cs => ((b - 192) * 64 + (c1 - 128)) :: cs)
        else none
      | [] => none
    else if 224 ≤ b ∧ b ≤ 239 then
      match rest with
      | c1 :: c2 :: rest2 =>
        if contLo b ≤ c1 ∧ c1 ≤ contHi b ∧ 128 ≤ c2 ∧ c2 ≤ 191 then
          (utf8Decode rest2).map
            (fun cs => ((b - 224) * 4096 + (c1 - 128) * 64 + (c2 - 128)) :: cs)
        else none
      | _ => none
    else if 240 ≤ b ∧ b ≤ 244 then
      match rest with
      | c1 :: c2 :: c3 :: rest3 =>
        if contLo b ≤ c1 ∧ c1 ≤ contHi b ∧ 128 ≤ c2 ∧ c2 ≤ 191 ∧
            128 ≤ c3 ∧ c3 ≤ 191 then
          (utf8Decode rest3).map
            (fun cs => ((b - 240) * 262144 + (c1 - 128) * 4096 +
              (c2 - 128) * 64 + (c3 - 128)) :: cs)
        else none
      | _ => none
    else none

/-- The dispatch-layer tool `export_csv` in `openrefine_server.py`: calls the
client's `export_csv` and then `result.decode("utf-8")` — a strict decode
that raises `UnicodeDecodeError` on bytes that are not valid UTF-8. -/
def server_export_csv (st : ClientState) (tokenResp resp : HttpResponse)
    (project_id : Int) :
    List Request × ClientState × Except ClientError (List Nat) :=
  match export_csv st tokenResp resp project_id with
  | (reqs, st1, .error e) => (reqs, st1, .error e)
  | (reqs, st1, .ok content) =>
    match utf8Decode content with
    | some cps => (reqs, st1, .ok cps)
    | none => (reqs, st1, .error .unicodeDecodeError)

/-- The state of the underlying `httpx.AsyncClient` connection owned by one
client instance. -/
structure ConnState where
  closed : Bool
deriving Repr, DecidableEq

/-- `OpenRefineClient.close`: `await self._client.aclose()`. -/
def close (_c : ConnState) : ConnState := { closed := true }

/-- `OpenRefineClient.__aexit__(exc_type, exc_val, exc_tb)`: calls `close`
unconditionally, ignoring the exception information. -/
def aexit (c : ConnState) (_exc : Option ClientError) : ConnState := close c

/-- `async with OpenRefineClient(...) as client: body` — the async context
manager protocol: run the body, then invoke `__aexit__` on every exit path,
passing the exception when the body raised one. -/
def withClientScope {α : Type} (c : ConnState)
    (body : ConnState → ConnState × Except ClientError α) :
    ConnState × Except ClientError α :=
  match body c with
  | (c1, .ok a) => (aexit c1 none, .ok a)
  | (c1, .error e) => (aexit c1 (some e), .error e)

/-- One invocation of a client method, bundling the responses the wrapped
server would return for the HTTP exchanges that invocation performs.  The
token-endpoint response is global to the run (the token endpoint is
deterministic for the purposes of the caching claims). -/
inductive Call where
  | createP (dlResp upResp : HttpResponse) (dataset_url : String)
      (name : Option String)
  | applyOps (resp : HttpResponse) (project_id : Int) (operations : Operations)
  | exportC (resp : HttpResponse) (project_id : Int)
  | deleteP (resp : HttpResponse) (project_id : Int)
  | getModels (resp : HttpResponse) (project_id : Int)

/-- Execute one call against the client state: the requests it issues and the
state it leaves behind.  A call that raises leaves the client usable (a
Python exception does not reset `self._csrf_token`), so the per-call result
is dropped. -/
def stepCall (tokenResp : HttpResponse) (st : ClientState) :
    Call → List Request × ClientState
  | .createP dl up u n =>
    let r := create_project st tokenResp dl up u n
    (r.1, r.2.1)
  | .applyOps resp pid ops =>
    let r := apply_operations st tokenResp resp pid ops
    (r.1, r.2.1)
  | .exportC resp pid =>
    let r := export_csv st tokenResp resp pid
    (r.1, r.2.1)
  | .deleteP resp pid =>
    let r := delete_project st tokenResp resp pid
    (r.1, r.2.1)
  | .getModels resp pid =>
    let r := get_project_models st resp pid
    (r.1, r.2.1)

/-- Run a sequence of calls on one client instance, concatenating the request
traces. -/
def runCalls (tokenResp : HttpResponse) (st : ClientState) :
    List Call → List Request × ClientState
  | [] => ([], st)
  | c :: cs =>
    let s := stepCall tokenResp st c
    let r := runCalls tokenResp s.2 cs
    (s.1 ++ r.1, r.2)

/-- Number of hits on the CSRF-token endpoint in a request trace. -/
def countTokenFetches (reqs : List Request) : Nat :=
  reqs.countP (fun r => match r with | .getCsrfToken => true | _ => false)

/-- Weight of the memoized-token state: 1 while no token is cached, 0 after.
Used to show the token endpoint is hit at most once across a run. -/
def tokWeight (st : ClientState) : Nat :=
  match st.csrf_token with
  | none => 1
  | some _ => 0

/-- Invariant tying the cached token to the value `t` the token endpoint
serves: either nothing is cached yet, or exactly `t` is cached. -/
def TokenInv (t : Json) (st : ClientState) : Prop :=
  st.csrf_token = none ∨ st.csrf_token = some t

/-- A request trace is good for token `t` when every POST in it carries `t`
as its `csrf_token` query parameter and no GET carries any `csrf_token`
parameter. -/
def GoodTrace (t : Json) (reqs : List Request) : Prop :=
  (∀ u p d f, Request.httpPost u p d f ∈ reqs →
    p.lookup "csrf_token" = some t) ∧
  (∀ u p, Request.httpGet u p ∈ reqs → p.lookup "csrf_token" = none)

/-! ### Concrete fixtures used by counterexamples and witnesses -/

/-- A token-endpoint response carrying the token `"tok"`. -/
def tokenRespOk : HttpResponse :=
  ⟨200, none, some (.obj [("token", Json.str "tok")]), []⟩

/-- A failing token-endpoint response (HTTP 500). -/
def tokenRespBad : HttpResponse := ⟨500, none, none, []⟩

/-- Client state with the token `"tok"` already cached. -/
def stCached : ClientState := ⟨some (.str "tok")⟩

/-- Fresh client state (no cached token). -/
def stFresh : ClientState := ⟨none⟩

/-- A plain `code: ok` JSON success response. -/
def okResp : HttpResponse := ⟨200, none, some (.obj [("code", Json.str "ok")]), []⟩

/-- A 200 response with a non-JSON body (e.g. CSV bytes). -/
def plainOkResp : HttpResponse := ⟨200, none, none, [1, 2]⟩

/-- A project-creation redirect whose location carries `project=42`. -/
def redirectResp : HttpResponse := ⟨302, some "/project?project=42", none, []⟩

/-- A project-creation redirect whose location carries a negative id. -/
def negRedirectResp : HttpResponse := ⟨302, some "/project?project=-1", none, []⟩

/-- A JSON-shaped project-creation success naming the project itself. -/
def jsonCreateResp : HttpResponse :=
  ⟨200, none,
    some (.obj [("projectID", Json.num 7), ("projectName", Json.str "ServerName")]), []⟩

/-- A 302 dataset-download response (non-2xx, yet not rejected). -/
def dl302 : HttpResponse := ⟨302, none, none, []⟩

/-- An export response whose body bytes are not valid UTF-8. -/
def csvBadResp : HttpResponse := ⟨200, none, none, [255]⟩

/-- A token-endpoint response carrying an empty token string. -/
def emptyTokenResp : HttpResponse :=
  ⟨200, none, some (.obj [("token", Json.str "")]), []⟩

/-- A mixed sequence of mutating and read-only calls used to witness the
token-caching behaviour. -/
def c5calls : List Call :=
  [Call.deleteP okResp 1, Call.getModels okResp 2, Call.exportC plainOkResp 1]

/-! ### Helper lemmas -/

/-- `_validate_openrefine_response` only ever returns its own argument. -/
theorem validate_ok_eq {r r' : HttpResponse}
    (h : validate_openrefine_response r = .ok r') : r' = r := by
  unfold validate_openrefine_response at h
  repeat' split at h
  all_goals simp_all

/-- Reduction of `_validate_openrefine_response` once the status check has
passed and the body is known to parse as a JSON object. -/
theorem validate_body_obj {r : HttpResponse} {fields : List (String × Json)}
    (hs : (if r.status_code = 302 then .ok () else raise_for_status r :
      Except ClientError Unit) = .ok ())
    (hb : r.jsonBody = some (.obj fields)) :
    validate_openrefine_response r =
      match fields.lookup "code" with
      | some (.str s) =>
        if s = "error" then
          .error (.apiError ((fields.lookup "message").getD (.str "Unknown error")))
        else .ok r
      | _ => .ok r := by
  unfold validate_openrefine_response
  rw [hs, hb]

/-- A successful `_post` returns the (validated) response it was given. -/
theorem post_ok_eq {st : ClientState} {tokenResp : HttpResponse} {url : String}
    {params : List (String × Json)} {data : List (String × String)}
    {hasFile : Bool} {resp : HttpResponse} {reqs : List Request}
    {st1 : ClientState} {r : HttpResponse}
    (h : post st tokenResp url params data hasFile resp = (reqs, st1, .ok r)) :
    r = resp := by
  unfold post at h
  split at h
  · simp_all
  · rw [Prod.ext_iff, Prod.ext_iff] at h
    exact validate_ok_eq h.2.2

/-- The empty trace is good for any token. -/
theorem goodTrace_nil (t : Json) : GoodTrace t [] :=
  ⟨fun _ _ _ _ h => absurd h (List.not_mem_nil _), fun _ _ h => absurd h (List.not_mem_nil _)⟩

/-- Goodness of traces is preserved by concatenation. -/
theorem goodTrace_append {t : Json} {xs ys : List Request}
    (hx : GoodTrace t xs) (hy : GoodTrace t ys) : GoodTrace t (xs ++ ys) := by
  refine ⟨fun u p d f h => ?_, fun u p h => ?_⟩
  · rcases List.mem_append.mp h with h | h
    · exact hx.1 u p d f h
    · exact hy.1 u p d f h
  · rcases List.mem_append.mp h with h | h
    · exact hx.2 u p h
    · exact hy.2 u p h

/-- A lone token fetch is a good trace. -/
theorem goodTrace_tokenFetch (t : Json) : GoodTrace t [Request.getCsrfToken] := by
  refine ⟨fun u p d f h => ?_, fun u p h => ?_⟩ <;> simp at h

/-- A lone GET whose parameters carry no `csrf_token` key is a good trace. -/
theorem goodTrace_get (t : Json) (u0 : String) (p0 : List (String × Json))
    (hp : p0.lookup "csrf_token" = none) :
    GoodTrace t [Request.httpGet u0 p0] := by
  refine ⟨fun u p d f h => ?_, fun u p h => ?_⟩
  · simp at h
  · simp only [List.mem_singleton, Request.httpGet.injEq] at h
    obtain ⟨-, rfl⟩ := h
    exact hp

/-- A lone POST whose parameters look up `csrf_token` to `t` is a good
trace. -/
theorem goodTrace_post (t : Json) (u0 : String) (p0 : List (String × Json))
    (d0 : List (String × String)) (f0 : Bool)
    (hp : p0.lookup "csrf_token" = some t) :
    GoodTrace t [Request.httpPost u0 p0 d0 f0] := by
  refine ⟨fun u p d f h => ?_, fun u p h => ?_⟩
  · simp only [List.mem_singleton, Request.httpPost.injEq] at h
    obtain ⟨-, rfl, -, -⟩ := h
    exact hp
  · simp at h

/-- A successful fresh token fetch has exactly one shape: one request, the
token cached, the token returned. -/
theorem get_csrf_token_fresh {tokenResp : HttpResponse} {t : Json}
    (h : (get_csrf_token ⟨none⟩ tokenResp).2.2 = .ok t) :
    get_csrf_token ⟨none⟩ tokenResp = ([Request.getCsrfToken], ⟨some t⟩, .ok t) := by
  simp only [get_csrf_token] at h ⊢
  repeat' split at h
  all_goals simp_all

/-- `_post` with a cached token: no token fetch, one POST carrying the
cached token. -/
theorem post_cached {t : Json} {tokenResp : HttpResponse} {url : String}
    {params : List (String × Json)} {data : List (String × String)}
    {hasFile : Bool} {resp : HttpResponse} :
    post ⟨some t⟩ tokenResp url params data hasFile resp =
      ([Request.httpPost url (params ++ [("csrf_token", t)]) data hasFile],
        ⟨some t⟩, validate_openrefine_response resp) := rfl

/-- `_post` with no cached token, when the token fetch succeeds: one token
fetch followed by one POST carrying the fetched token, which is now
cached. -/
theorem post_fresh {tokenResp : HttpResponse} {t : Json}
    (htok : (get_csrf_token ⟨none⟩ tokenResp).2.2 = .ok t)
    {url : String} {params : List (String × Json)}
    {data : List (String × String)} {hasFile : Bool} {resp : HttpResponse} :
    post ⟨none⟩ tokenResp url params data hasFile resp =
      ([Request.getCsrfToken,
        Request.httpPost url (params ++ [("csrf_token", t)]) data hasFile],
        ⟨some t⟩, validate_openrefine_response resp) := by
  unfold post
  rw [get_csrf_token_fresh htok]
  rfl

/-- The requests and state of `apply_operations` are those of its `_post`
(the postprocessing touches only the result). -/
theorem apply_components (st : ClientState) (tokenResp resp : HttpResponse)
    (pid : Int) (ops : Operations) :
    ((apply_operations st tokenResp resp pid ops).1,
      (apply_operations st tokenResp resp pid ops).2.1) =
      ((post st tokenResp "/command/core/apply-operations"
          [("project", .str (toString pid))]
          [("operations", normalize_operations ops)] false resp).1,
        (post st tokenResp "/command/core/apply-operations"
          [("project", .str (toString pid))]
          [("operations", normalize_operations ops)] false resp).2.1) := by
  simp only [apply_operations]
  split <;> rename_i heq
  · simp [heq]
  · repeat' split
    all_goals simp [heq]

/-- The requests and state of `export_csv` are those of its `_post`. -/
theorem export_components (st : ClientState) (tokenResp resp : HttpResponse)
    (pid : Int) :
    ((export_csv st tokenResp resp pid).1, (export_csv st tokenResp resp pid).2.1) =
      ((post st tokenResp "/command/core/export-rows"
          [("project", .str (toString pid)), ("format", .str "csv")]
          [] false resp).1,
        (post st tokenResp "/command/core/export-rows"
          [("project", .str (toString pid)), ("format", .str "csv")]
          [] false resp).2.1) := by
  simp only [export_csv]
  split <;> rename_i heq
  · simp [heq]
  · simp [heq]

/-- The requests and state of `delete_project` are those of its `_post`. -/
theorem delete_components (st : ClientState) (tokenResp resp : HttpResponse)
    (pid : Int) :
    ((delete_project st tokenResp resp pid).1,
      (delete_project st tokenResp resp pid).2.1) =
      ((post st tokenResp "/command/core/delete-project"
          [("project", .str (toString pid))] [] false resp).1,
        (post st tokenResp "/command/core/delete-project"
          [("project", .str (toString pid))] [] false resp).2.1) := by
  simp only [delete_project]
  split <;> rename_i heq
  · simp [heq]
  · repeat' split
    all_goals simp [heq]

/-- `get_project_models` issues exactly one unauthenticated GET and never
changes the client state. -/
theorem models_components (st : ClientState) (resp : HttpResponse) (pid : Int) :
    ((get_project_models st resp pid).1, (get_project_models st resp pid).2.1) =
      ([Request.httpGet "/command/core/get-models"
          [("project", .str (toString pid))]], st) := by
  simp only [get_project_models]
  repeat' split
  all_goals simp

/-- The requests and state of `create_project`: the dataset GET alone when
its validation fails, else the dataset GET followed by the upload `_post`'s
requests and state. -/
theorem create_components (st : ClientState)
    (tokenResp dlResp upResp : HttpResponse) (u : String) (name : Option String) :
    ((create_project st tokenResp dlResp upResp u name).1,
      (create_project st tokenResp dlResp upResp u name).2.1) =
      (match validate_openrefine_response dlResp with
       | .error _ => ([Request.httpGet u []], st)
       | .ok _ =>
         ([Request.httpGet u []] ++
            (post st tokenResp "/command/core/create-project-from-upload" []
              (match name with
               | some n => if n = "" then [] else [("project-name", n)]
               | none => []) true upResp).1,
           (post st tokenResp "/command/core/create-project-from-upload" []
             (match name with
              | some n => if n = "" then [] else [("project-name", n)]
              | none => []) true upResp).2.1)) := by
  simp only [create_project]
  generalize (match name with
    | some n => if n = "" then [] else [("project-name", n)]
    | none => ([] : List (String × String))) = D
  split <;> rename_i heq
  · simp [heq]
  · split <;> rename_i heq2
    · simp [heq2]
    · repeat' split
      all_goals simp [heq2]

/-- One client call preserves the token invariant, keeps its trace good, and
hits the token endpoint only out of the `none` state — provided the token
endpoint serves a usable token `t`. -/
theorem stepCall_spec {tokenResp : HttpResponse} {t : Json}
    (htok : (get_csrf_token ⟨none⟩ tokenResp).2.2 = .ok t)
    {st : ClientState} (hst : TokenInv t st) (c : Call) :
    TokenInv t (stepCall tokenResp st c).2 ∧
    countTokenFetches (stepCall tokenResp st c).1 +
      tokWeight (stepCall tokenResp st c).2 ≤ tokWeight st ∧
    GoodTrace t (stepCall tokenResp st c).1 := by
  have hst' : st = ⟨none⟩ ∨ st = ⟨some t⟩ := by
    rcases hst with h | h
    · left; cases st; simp_all
    · right; cases st; simp_all
  have postTrace : ∀ (url : String) (params : List (String × Json))
      (data : List (String × String)) (hasFile : Bool) (resp : HttpResponse),
      params.lookup "csrf_token" = none →
      TokenInv t (post st tokenResp url params data hasFile resp).2.1 ∧
      countTokenFetches (post st tokenResp url params data hasFile resp).1 +
        tokWeight (post st tokenResp url params data hasFile resp).2.1 ≤
          tokWeight st ∧
      GoodTrace t (post st tokenResp url params data hasFile resp).1 := by
    intro url params data hasFile resp hp
    rcases hst' with rfl | rfl
    · rw [post_fresh htok]
      refine ⟨Or.inr rfl, by simp [countTokenFetches, tokWeight], ?_⟩
      refine goodTrace_append (goodTrace_tokenFetch t)
        (goodTrace_post t _ _ _ _ ?_)
      simp [List.lookup_append, hp]
    · rw [post_cached]
      refine ⟨Or.inr rfl, by simp [countTokenFetches, tokWeight], ?_⟩
      refine goodTrace_post t _ _ _ _ ?_
      simp [List.lookup_append, hp]
  cases c with
  | createP dlResp upResp u name =>
    have hc := create_components st tokenResp dlResp upResp u name
    simp only [stepCall]
    revert hc
    generalize (match name with
      | some n => if n = "" then [] else [("project-name", n)]
      | none => ([] : List (String × String))) = D
    intro hc
    rw [Prod.mk.injEq] at hc
    obtain ⟨hc1, hc2⟩ := hc
    rw [hc1, hc2]
    cases hval : validate_openrefine_response dlResp with
    | error e =>
      simp only [hval]
      exact ⟨hst, by simp [countTokenFetches],
        goodTrace_get t _ _ (by simp [List.lookup])⟩
    | ok r0 =>
      simp only [hval]
      obtain ⟨p1, p2, p3⟩ := postTrace "/command/core/create-project-from-upload"
        [] D true upResp (by simp [List.lookup])
      refine ⟨p1, ?_, goodTrace_append
        (goodTrace_get t _ _ (by simp [List.lookup])) p3⟩
      have hcount : countTokenFetches ([Request.httpGet u []] ++
          (post st tokenResp "/command/core/create-project-from-upload" []
            D true upResp).1) =
          countTokenFetches (post st tokenResp
            "/command/core/create-project-from-upload" [] D true upResp).1 := by
        simp [countTokenFetches]
      simpa [hcount] using p2
  | applyOps resp pid ops =>
    have hc := apply_components st tokenResp resp pid ops
    simp only [stepCall]
    rw [Prod.mk.injEq] at hc
    obtain ⟨hc1, hc2⟩ := hc
    rw [hc1, hc2]
    exact postTrace _ _ _ _ _ (by simp [List.lookup])
  | exportC resp pid =>
    have hc := export_components st tokenResp resp pid
    simp only [stepCall]
    rw [Prod.mk.injEq] at hc
    obtain ⟨hc1, hc2⟩ := hc
    rw [hc1, hc2]
    exact postTrace _ _ _ _ _ (by simp [List.lookup])
  | deleteP resp pid =>
    have hc := delete_components st tokenResp resp pid
    simp only [stepCall]
    rw [Prod.mk.injEq] at hc
    obtain ⟨hc1, hc2⟩ := hc
    rw [hc1, hc2]
    exact postTrace _ _ _ _ _ (by simp [List.lookup])
  | getModels resp pid =>
    have hc := models_components st resp pid
    simp only [stepCall]
    rw [Prod.mk.injEq] at hc
    obtain ⟨hc1, hc2⟩ := hc
    rw [hc1, hc2]
    exact ⟨hst, by simp [countTokenFetches],
      goodTrace_get t _ _ (by simp [List.lookup])⟩

/-- Running any call sequence preserves the token invariant, keeps the whole
trace good, and bounds the token fetches by the starting token weight. -/
theorem runCalls_spec {tokenResp : HttpResponse} {t : Json}
    (htok : (get_csrf_token ⟨none⟩ tokenResp).2.2 = .ok t) :
    ∀ (calls : List Call) (st : ClientState), TokenInv t st →
      TokenInv t (runCalls tokenResp st calls).2 ∧
      countTokenFetches (runCalls tokenResp st calls).1 +
        tokWeight (runCalls tokenResp st calls).2 ≤ tokWeight st ∧
      GoodTrace t (runCalls tokenResp st calls).1 := by
  intro calls
  induction calls with
  | nil =>
    intro st hst
    exact ⟨hst, by simp [runCalls, countTokenFetches], goodTrace_nil t⟩
  | cons c cs ih =>
    intro st hst
    obtain ⟨h1, h2, h3⟩ := stepCall_spec htok hst c
    obtain ⟨g1, g2, g3⟩ := ih _ h1
    refine ⟨g1, ?_, goodTrace_append h3 g3⟩
    simp only [runCalls, countTokenFetches, List.countP_append] at *
    omega

/-! ### Claims -/

/-- C2: for every `apply_operations` call that returns an `ApplySummary`
(in particular the response body was valid JSON), `applied = true` exactly
when the body's `code` field equals the literal `"ok"`, and
`last_modified_ms` equals the body's `lastModified` field, defaulting to 0
when the server omits it. -/
theorem claim_C2_apply_summary (st : ClientState) (tokenResp resp : HttpResponse)
    (pid : Int) (ops : Operations) (reqs : List Request) (st1 : ClientState)
    (s : ApplySummary)
    (h : apply_operations st tokenResp resp pid ops = (reqs, st1, .ok s)) :
    ∃ fields, resp.jsonBody = some (.obj fields) ∧
      (s.applied = true ↔ fields.lookup "code" = some (.str "ok")) ∧
      ((fields.lookup "lastModified").isNone → s.last_modified_ms = 0) ∧
      (∀ n : Int, fields.lookup "lastModified" = some (.num n) →
        s.last_modified_ms = n) := by
  simp only [apply_operations] at h
  split at h
  · simp_all
  · rename_i reqs0 st0 response hpost
    have hresp : response = resp := post_ok_eq hpost
    subst hresp
    split at h
    · simp_all
    · rename_i fields hbody
      refine ⟨fields, hbody, ?_⟩
      split at h
      · rename_i m hm
        rw [Prod.ext_iff, Prod.ext_iff] at h
        obtain ⟨-, -, h3⟩ := h
        have hs : s = ⟨(match fields.lookup "code" with
            | some (.str c) => c == "ok"
            | _ => false), m⟩ := by
          cases h3' : (Except.ok (ε := ClientError)
            (⟨(match fields.lookup "code" with
                | some (.str c) => c == "ok"
                | _ => false), m⟩ : ApplySummary)) with
          | _ => simp_all
        subst hs
        refine ⟨?_, ?_, ?_⟩
        · cases hc : fields.lookup "code" with
          | none => simp [hc]
          | some j => cases j <;> simp_all [beq_iff_eq]
        · intro hnone
          cases hl : fields.lookup "lastModified" with
          | none => simp [hl] at hm; simpa [pydanticInt] using hm.symm
          | some j => simp [hl] at hnone
        · intro n hl
          simp [hl, pydanticInt] at hm
          simpa using hm.symm
      · simp_all
    · simp_all

/-- Witness for C2, at a concrete `code: ok` response with no `lastModified`
field. -/
theorem claim_C2_witness :
    ∃ fields, okResp.jsonBody = some (Json.obj fields) ∧
      ((⟨true, 0⟩ : ApplySummary).applied = true ↔
        fields.lookup "code" = some (Json.str "ok")) ∧
      ((fields.lookup "lastModified").isNone →
        (⟨true, 0⟩ : ApplySummary).last_modified_ms = 0) ∧
      (∀ n : Int, fields.lookup "lastModified" = some (Json.num n) →
        (⟨true, 0⟩ : ApplySummary).last_modified_ms = n) :=
  claim_C2_apply_summary stCached tokenRespOk okResp 1 (.str "[]")
    [Request.httpPost "/command/core/apply-operations"
      [("project", Json.str "1"), ("csrf_token", Json.str "tok")]
      [("operations", "[]")] false]
    stCached ⟨true, 0⟩ rfl

/-- C3: `delete_project` returns a boolean that is `true` exactly when the
JSON response's `code` field equals `"ok"`; it does not raise on a no-op
success response for a nonexistent project. -/
theorem claim_C3_delete (st : ClientState) (tokenResp resp : HttpResponse)
    (pid : Int) (reqs : List Request) (st1 : ClientState) (b : Bool)
    (h : delete_project st tokenResp resp pid = (reqs, st1, .ok b)) :
    ∃ fields, resp.jsonBody = some (.obj fields) ∧
      (b = true ↔ fields.lookup "code" = some (.str "ok")) := by
  simp only [delete_project] at h
  split at h
  · simp_all
  · rename_i reqs0 st0 response hpost
    have hresp : response = resp := post_ok_eq hpost
    subst hresp
    split at h
    · simp_all
    · rename_i fields hbody
      refine ⟨fields, hbody, ?_⟩
      rw [Prod.ext_iff, Prod.ext_iff] at h
      obtain ⟨-, -, h3⟩ := h
      have hb : b = (match fields.lookup "code" with
          | some (.str c) => c == "ok"
          | _ => false) := by simp_all
      subst hb
      cases hc : fields.lookup "code" with
      | none => simp [hc]
      | some j => cases j <;> simp_all [beq_iff_eq]
    · simp_all

/-- Witness for C3: deleting a (possibly nonexistent) project whose delete
response is the server's no-op success returns `true`, not an error. -/
theorem claim_C3_witness :
    ∃ fields, okResp.jsonBody = some (Json.obj fields) ∧
      ((true : Bool) = true ↔ fields.lookup "code" = some (Json.str "ok")) :=
  claim_C3_delete stCached tokenRespOk okResp 99999
    [Request.httpPost "/command/core/delete-project"
      [("project", Json.str "99999"), ("csrf_token", Json.str "tok")] [] false]
    stCached true rfl

/-- C7: `apply_operations` on a structured operations value behaves exactly
as on its `json.dumps` serialization (same requests sent, same state, same
`ApplySummary`), and normalization is the identity on strings. -/
theorem claim_C7_normalization (st : ClientState) (tokenResp resp : HttpResponse)
    (pid : Int) (d : Json) (s : String) :
    apply_operations st tokenResp resp pid (.json d) =
      apply_operations st tokenResp resp pid (.str (dumps d)) ∧
    normalize_operations (.str s) = s :=
  ⟨rfl, rfl⟩

/-- C9: after exiting the client's scoped-acquisition block the underlying
connection is closed, whether the body returned normally or raised. -/
theorem claim_C9_scoped_close {α : Type} (c : ConnState)
    (body : ConnState → ConnState × Except ClientError α) :
    ((withClientScope c body).1).closed = true := by
  unfold withClientScope
  split <;> simp [aexit, close]

/-- C10: the client-level `export_csv` returns the response bytes unmodified,
while the dispatch-layer `export_csv` decodes them strictly as UTF-8 and
raises `UnicodeDecodeError` when they are not valid UTF-8. -/
theorem claim_C10_strict_decode (st : ClientState) (tokenResp resp : HttpResponse)
    (pid : Int) (reqs : List Request) (st1 : ClientState) (bytes : List Nat)
    (h : export_csv st tokenResp resp pid = (reqs, st1, .ok bytes)) :
    bytes = resp.content ∧
    (utf8Decode bytes = none →
      server_export_csv st tokenResp resp pid =
        (reqs, st1, .error .unicodeDecodeError)) := by
  constructor
  · have h' := h
    simp only [export_csv] at h'
    split at h'
    · simp_all
    · rename_i reqs0 st0 response hpost
      have hresp : response = resp := post_ok_eq hpost
      subst hresp
      rw [Prod.ext_iff, Prod.ext_iff] at h'
      obtain ⟨-, -, h3⟩ := h'
      simpa using h3.symm
  · intro hdec
    simp only [server_export_csv, h, hdec]

/-- Witness for C10 at a concrete export response whose body is the single
byte 0xFF (not valid UTF-8). -/
theorem claim_C10_witness :
    server_export_csv stCached tokenRespOk csvBadResp 1 =
      ([Request.httpPost "/command/core/export-rows"
          [("project", Json.str "1"), ("format", Json.str "csv"),
            ("csrf_token", Json.str "tok")] [] false],
        stCached, .error .unicodeDecodeError) :=
  (claim_C10_strict_decode stCached tokenRespOk csvBadResp 1
    [Request.httpPost "/command/core/export-rows"
      [("project", Json.str "1"), ("format", Json.str "csv"),
        ("csrf_token", Json.str "tok")] [] false]
    stCached [255] rfl).2 rfl

/-- C4 counterexample: 301 is a redirect (3xx) status, yet the uniform
response validation raises an HTTP status error on it — only the exact
status 302 skips status validation. -/
theorem claim_C4_counterexample :
    validate_openrefine_response ⟨301, none, none, []⟩ =
        .error (.httpStatusError 301) ∧
    300 ≤ 301 ∧ 301 < 400 :=
  ⟨rfl, by omega, by omega⟩

/-- C4 (amended): only status exactly 302 skips status validation; any other
non-2xx status raises an HTTP status error; then a body parsing as a JSON
object with `code = "error"` raises a value error carrying the server's
`message` field (default `"Unknown error"`), and a body that is not valid
JSON is accepted with the response returned unexamined. -/
theorem claim_C4_validation (r : HttpResponse) :
    (¬(200 ≤ r.status_code ∧ r.status_code ≤ 299) → r.status_code ≠ 302 →
      validate_openrefine_response r = .error (.httpStatusError r.status_code)) ∧
    ((200 ≤ r.status_code ∧ r.status_code ≤ 299) ∨ r.status_code = 302 →
      (r.jsonBody = none → validate_openrefine_response r = .ok r) ∧
      (∀ fields, r.jsonBody = some (.obj fields) →
        (fields.lookup "code" = some (.str "error") →
          validate_openrefine_response r =
            .error (.apiError ((fields.lookup "message").getD (.str "Unknown error")))) ∧
        (fields.lookup "code" ≠ some (.str "error") →
          validate_openrefine_response r = .ok r))) := by
  have hstatus : ∀ h : (200 ≤ r.status_code ∧ r.status_code ≤ 299) ∨
      r.status_code = 302,
      (if r.status_code = 302 then .ok () else raise_for_status r :
        Except ClientError Unit) = .ok () := by
    intro h
    rcases h with h | h
    · have h302 : r.status_code ≠ 302 := by omega
      simp [h302, raise_for_status, h.1, h.2]
    · simp [h]
  constructor
  · intro h1 h2
    unfold validate_openrefine_response
    simp [h2, raise_for_status, h1]
  · intro hok
    constructor
    · intro hb
      unfold validate_openrefine_response
      rw [hstatus hok, hb]
    · intro fields hb
      have hred := validate_body_obj (hstatus hok) hb
      constructor
      · intro hc
        rw [hred, hc]
        simp
      · intro hc
        rw [hred]
        cases hcode : fields.lookup "code" with
        | none => rfl
        | some j =>
          cases j with
          | str s =>
            by_cases hse : s = "error"
            · subst hse
              exact absurd hcode hc
            · simp [hse]
          | null => rfl
          | bool b => rfl
          | num n => rfl
          | arr elems => rfl
          | obj fs => rfl

/-- Witness for C4 at three concrete responses: a 500 raising on status, a
non-JSON 200 body returned unexamined, and a `code: error` body raising a
value error with the server's message. -/
theorem claim_C4_witness :
    validate_openrefine_response ⟨500, none, none, []⟩ =
        .error (.httpStatusError 500) ∧
    validate_openrefine_response ⟨200, none, none, [10]⟩ =
        .ok ⟨200, none, none, [10]⟩ ∧
    validate_openrefine_response
        ⟨200, none,
          some (.obj [("code", Json.str "error"), ("message", Json.str "boom")]),
          []⟩ =
      .error (.apiError (Json.str "boom")) :=
  ⟨(claim_C4_validation ⟨500, none, none, []⟩).1 (by decide) (by decide),
   ((claim_C4_validation ⟨200, none, none, [10]⟩).2 (Or.inl (by decide))).1 rfl,
   (((claim_C4_validation
        ⟨200, none,
          some (.obj [("code", Json.str "error"), ("message", Json.str "boom")]),
          []⟩).2
      (Or.inl (by decide))).2
      [("code", Json.str "error"), ("message", Json.str "boom")] rfl).1 rfl⟩

/-- C6 counterexample: a 302 (non-success) dataset-download response is
accepted by the lenient validator, so the upload POST is still sent — the
call even succeeds. -/
theorem claim_C6_counterexample :
    ¬(200 ≤ dl302.status_code ∧ dl302.status_code ≤ 299) ∧
    create_project stCached tokenRespOk dl302 redirectResp "u" none =
      ([Request.httpGet "u" [],
        Request.httpPost "/command/core/create-project-from-upload"
          [("csrf_token", Json.str "tok")] [] true],
        stCached, .ok ⟨42, "Untitled"⟩) :=
  ⟨by simp [dl302], rfl⟩

/-- C6 (amended): whenever the dataset GET yields a status that is neither
2xx nor exactly 302, `create_project` fails with the HTTP status (transport)
error and no upload request is sent. -/
theorem claim_C6_dataset_fetch (st : ClientState)
    (tokenResp dlResp upResp : HttpResponse) (u : String) (name : Option String)
    (h1 : ¬(200 ≤ dlResp.status_code ∧ dlResp.status_code ≤ 299))
    (h2 : dlResp.status_code ≠ 302) :
    create_project st tokenResp dlResp upResp u name =
      ([Request.httpGet u []], st, .error (.httpStatusError dlResp.status_code)) := by
  simp only [create_project]
  have hval : validate_openrefine_response dlResp =
      .error (.httpStatusError dlResp.status_code) := by
    unfold validate_openrefine_response
    simp [h2, raise_for_status, h1]
  rw [hval]

/-- Witness for C6 at a concrete 404 dataset response. -/
theorem claim_C6_witness :
    create_project stCached tokenRespOk ⟨404, none, none, []⟩ redirectResp
        "u" none =
      ([Request.httpGet "u" []], stCached, .error (.httpStatusError 404)) :=
  claim_C6_dataset_fetch stCached tokenRespOk ⟨404, none, none, []⟩
    redirectResp "u" none (by decide) (by decide)

/-- C1 counterexample: in the JSON success shape the server-supplied
`projectName` overrides the caller-supplied name, so the returned name is not
the supplied one. -/
theorem claim_C1_counterexample :
    (create_project stCached tokenRespOk plainOkResp jsonCreateResp
        "http://x/data.csv" (some "Mine")).2.2 =
      .ok ⟨7, "ServerName"⟩ ∧ "ServerName" ≠ "Mine" :=
  ⟨rfl, by decide⟩

/-- C1 (amended): on a successful `create_project`, in the redirect shape the
returned name is the supplied name when it is truthy (non-empty), else
`"Untitled"`; in the JSON shape the server-supplied `projectName` takes
precedence when present, and the supplied (truthy) name, else `"Untitled"`,
is used only when the server supplies none. -/
theorem claim_C1_name (st : ClientState) (tokenResp dlResp upResp : HttpResponse)
    (u : String) (name : Option String) (reqs : List Request) (st1 : ClientState)
    (info : ProjectInfo)
    (h : create_project st tokenResp dlResp upResp u name = (reqs, st1, .ok info)) :
    (upResp.status_code = 302 → info.name = pyStrOr name "Untitled") ∧
    (upResp.status_code ≠ 302 →
      ∀ fields, upResp.jsonBody = some (.obj fields) →
        (∀ s, fields.lookup "projectName" = some (.str s) → info.name = s) ∧
        ((fields.lookup "projectName").isNone →
          info.name = pyStrOr name "Untitled")) := by
  simp only [create_project] at h
  split at h
  · simp_all
  · split at h
    · simp_all
    · rename_i reqs0 st0 response hpost
      have hresp : response = upResp := post_ok_eq hpost
      subst hresp
      split at h
      · -- redirect shape
        rename_i h302
        constructor
        · intro _
          split at h
          · split at h
            · simp only [Prod.mk.injEq, Except.ok.injEq] at h
              obtain ⟨-, -, h3⟩ := h
              rw [← h3]
            · simp_all
          · simp_all
        · intro hne
          exact absurd h302 hne
      · -- JSON shape
        rename_i h302
        constructor
        · intro habs
          exact absurd habs h302
        · intro _ fields hbody
          split at h
          · simp_all
          · rename_i fields0 hbody0
            rw [hbody] at hbody0
            obtain ⟨rfl⟩ : fields0 = fields := by
              simpa using hbody0.symm
            constructor
            · intro s hs
              rw [hs] at h
              split at h
              · simp_all
              · simp_all
              · rename_i pid hpid
                split at h
                · rename_i i nm hi hnm
                  rw [Prod.ext_iff, Prod.ext_iff] at h
                  obtain ⟨-, -, h3⟩ := h
                  have : info = ⟨i, nm⟩ := by simp_all
                  rw [this]
                  simpa [pydanticStr] using hnm.symm
                · simp_all
            · intro hnone
              cases hpn : fields.lookup "projectName" with
              | some j => simp [hpn] at hnone
              | none =>
                rw [hpn] at h
                split at h
                · simp_all
                · simp_all
                · rename_i pid hpid
                  split at h
                  · rename_i i nm hi hnm
                    rw [Prod.ext_iff, Prod.ext_iff] at h
                    obtain ⟨-, -, h3⟩ := h
                    have : info = ⟨i, nm⟩ := by simp_all
                    rw [this]
                    simpa [pydanticStr] using hnm.symm
                  · simp_all
          · simp_all

/-- Witness for C1: a redirect-shape creation keeps the supplied name, and a
JSON-shape creation uses the server-supplied name. -/
theorem claim_C1_witness :
    (ProjectInfo.mk 42 "Mine").name = pyStrOr (some "Mine") "Untitled" ∧
    (ProjectInfo.mk 7 "ServerName").name = "ServerName" :=
  ⟨(claim_C1_name stCached tokenRespOk plainOkResp redirectResp "u" (some "Mine")
      [Request.httpGet "u" [],
        Request.httpPost "/command/core/create-project-from-upload"
          [("csrf_token", Json.str "tok")] [("project-name", "Mine")] true]
      stCached ⟨42, "Mine"⟩ rfl).1 rfl,
   ((claim_C1_name stCached tokenRespOk plainOkResp jsonCreateResp "u" none
      [Request.httpGet "u" [],
        Request.httpPost "/command/core/create-project-from-upload"
          [("csrf_token", Json.str "tok")] [] true]
      stCached ⟨7, "ServerName"⟩ rfl).2 (by decide)
      [("projectID", Json.num 7), ("projectName", Json.str "ServerName")] rfl).1
      "ServerName" rfl⟩

/-- C8 counterexample: a redirect whose location carries `project=-1` yields
a successful `create_project` with a negative `project_id` — the client does
not enforce the sign. -/
theorem claim_C8_counterexample :
    (create_project stCached tokenRespOk plainOkResp negRedirectResp "u"
        (some "N")).2.2 = .ok ⟨-1, "N"⟩ ∧ (-1 : Int) < 0 :=
  ⟨rfl, by decide⟩

/-- C8 (amended): on a successful `create_project` the returned `project_id`
equals the server-supplied identifier — parsed from the redirect location
after `"project="` in the redirect shape, or coerced from the JSON
`projectID` field otherwise — so it is non-negative exactly when the server
supplies a non-negative id; the client does not enforce the sign. -/
theorem claim_C8_project_id (st : ClientState)
    (tokenResp dlResp upResp : HttpResponse) (u : String) (name : Option String)
    (reqs : List Request) (st1 : ClientState) (info : ProjectInfo)
    (h : create_project st tokenResp dlResp upResp u name = (reqs, st1, .ok info)) :
    (upResp.status_code = 302 →
      ∀ idStr, (pySplit (upResp.location.getD "") "project=").get? 1 = some idStr →
        pyInt idStr = some info.project_id) ∧
    (upResp.status_code ≠ 302 →
      ∀ fields j, upResp.jsonBody = some (.obj fields) →
        fields.lookup "projectID" = some j →
        pydanticInt j = some info.project_id) := by
  simp only [create_project] at h
  split at h
  · simp_all
  · split at h
    · simp_all
    · rename_i reqs0 st0 response hpost
      have hresp : response = upResp := post_ok_eq hpost
      subst hresp
      split at h
      · rename_i h302
        refine ⟨?_, fun hne => absurd h302 hne⟩
        intro _ idStr hid
        split at h
        · rename_i s hs
          have hss : s = idStr := by rw [hs] at hid; simpa using hid
          subst hss
          split at h
          · rename_i pid hpid
            simp only [Prod.mk.injEq, Except.ok.injEq] at h
            obtain ⟨-, -, h3⟩ := h
            rw [← h3]
            exact hpid
          · simp_all
        · simp_all
      · rename_i h302
        refine ⟨fun habs => absurd habs h302, ?_⟩
        intro _ fields j hbody hj
        split at h
        · simp_all
        · rename_i fields0 hbody0
          have hf : fields0 = fields := by
            rw [hbody] at hbody0
            simpa using hbody0.symm
          subst hf
          split at h
          · simp_all
          · simp_all
          · rename_i pid hnn hpid
            have hjp : j = pid := by rw [hj] at hpid; simpa using hpid
            subst hjp
            split at h
            · rename_i i nm hi hnm
              simp only [Prod.mk.injEq, Except.ok.injEq] at h
              obtain ⟨-, -, h3⟩ := h
              rw [← h3]
              exact hi
            · simp_all
        · simp_all

/-- Witness for C8: the redirect id 42 and the JSON id 7 are both carried
into `project_id` unchanged. -/
theorem claim_C8_witness :
    pyInt "42" = some ((ProjectInfo.mk 42 "Mine").project_id) ∧
    pydanticInt (Json.num 7) = some ((ProjectInfo.mk 7 "ServerName").project_id) :=
  ⟨(claim_C8_project_id stCached tokenRespOk plainOkResp redirectResp "u"
      (some "Mine")
      [Request.httpGet "u" [],
        Request.httpPost "/command/core/create-project-from-upload"
          [("csrf_token", Json.str "tok")] [("project-name", "Mine")] true]
      stCached ⟨42, "Mine"⟩ rfl).1 rfl "42" rfl,
   (claim_C8_project_id stCached tokenRespOk plainOkResp jsonCreateResp "u" none
      [Request.httpGet "u" [],
        Request.httpPost "/command/core/create-project-from-upload"
          [("csrf_token", Json.str "tok")] [] true]
      stCached ⟨7, "ServerName"⟩ rfl).2 (by decide)
      [("projectID", Json.num 7), ("projectName", Json.str "ServerName")]
      (Json.num 7) rfl rfl⟩

/-- C5 counterexample: when the token endpoint itself fails, no token is
cached, so each of two mutating calls on the same client queries the token
endpoint — it is hit twice, not at most once. -/
theorem claim_C5_counterexample :
    countTokenFetches (runCalls tokenRespBad stFresh
        [Call.deleteP okResp 1, Call.deleteP okResp 1]).1 = 2 ∧
    ¬(2 ≤ 1) :=
  ⟨rfl, by omega⟩

/-- C5 (amended): provided the token endpoint serves a usable token `t`
(the fresh fetch succeeds), then across any sequence of calls on one client
instance the token endpoint is queried at most once, every POST sent attaches
that same cached token as the `csrf_token` query parameter, no GET (dataset
download or `get_project_models`) carries a `csrf_token` parameter, and a
token fetch whose validated JSON-object response lacks a `token` field or
carries an empty one fails with a value error. -/
theorem claim_C5_token_protocol (tokenResp : HttpResponse) (t : Json)
    (calls : List Call) (r : HttpResponse) (fields : List (String × Json))
    (htok : (get_csrf_token ⟨none⟩ tokenResp).2.2 = .ok t)
    (hval : validate_openrefine_response r = .ok r)
    (hbody : r.jsonBody = some (.obj fields))
    (hmiss : fields.lookup "token" = none ∨
      fields.lookup "token" = some (.str "")) :
    countTokenFetches (runCalls tokenResp ⟨none⟩ calls).1 ≤ 1 ∧
    (∀ u p d f, Request.httpPost u p d f ∈ (runCalls tokenResp ⟨none⟩ calls).1 →
      p.lookup "csrf_token" = some t) ∧
    (∀ u p, Request.httpGet u p ∈ (runCalls tokenResp ⟨none⟩ calls).1 →
      p.lookup "csrf_token" = none) ∧
    (get_csrf_token ⟨none⟩ r).2.2 =
      .error (.valueError "Failed to get CSRF token: no token returned") := by
  obtain ⟨g1, g2, g3⟩ := runCalls_spec htok calls ⟨none⟩ (Or.inl rfl)
  refine ⟨?_, g3.1, g3.2, ?_⟩
  · have hw : tokWeight ⟨none⟩ = 1 := rfl
    omega
  · simp only [get_csrf_token, hval, hbody]
    rcases hmiss with hm | hm <;> simp [hm, pyTruthy]

/-- Witness for C5: a run with a delete, a models fetch and an export against
a healthy token endpoint, plus an empty-token response failing the fetch. -/
theorem claim_C5_witness :
    countTokenFetches (runCalls tokenRespOk ⟨none⟩ c5calls).1 ≤ 1 ∧
    (∀ u p d f, Request.httpPost u p d f ∈ (runCalls tokenRespOk ⟨none⟩ c5calls).1 →
      p.lookup "csrf_token" = some (Json.str "tok")) ∧
    (∀ u p, Request.httpGet u p ∈ (runCalls tokenRespOk ⟨none⟩ c5calls).1 →
      p.lookup "csrf_token" = none) ∧
    (get_csrf_token ⟨none⟩ emptyTokenResp).2.2 =
      .error (.valueError "Failed to get CSRF token: no token returned") :=
  claim_C5_token_protocol tokenRespOk (Json.str "tok") c5calls emptyTokenResp
    [("token", Json.str "")] rfl rfl rfl (Or.inr rfl)

end OpenRefine
